import Mathlib

/-
Shallow embedding of src/mfi_mpower.py (mFi mPower client library).

Conventions of the embedding:
  * Python wall-clock floats are modelled as rationals.
  * The JSON blob returned by the device is modelled by the fields the
    library reads (status, host, sensors); a missing key is `none`.
  * The empty dict `self._data = {}` is modelled as `data = none`.
  * The network is an oracle `net : Nat → NetResult` indexed by the number
    of requests issued so far; the wall clock is an oracle
    `clock : Nat → ℚ` indexed by the number of time readings so far.
  * Raised exceptions are values of `PyErr`; an operation returns the
    final device/world state together with its outcome, because a raise
    in Python leaves prior mutations in place.
  * The properties `data`/`host_data`/`hostname` are mutually recursive in
    the source whenever `_data` is empty (the error message of `data`
    formats `self.hostname`, which reads `self.data` again); this is
    modelled with explicit fuel, `recursionError` standing for the
    RecursionError that CPython raises when the recursion limit is hit.
-/

namespace Mfi

/-- Typed errors of the library (CannotConnect, InvalidAuth, InvalidResponse,
InvalidData) together with the Python builtin errors that can escape from the
code paths modelled here (ValueError, IndexError, RecursionError). -/
inductive PyErr where
  | cannotConnect
  | invalidAuth
  | invalidResponse (code : Nat)
  | invalidData
  | valueError
  | indexError
  | recursionError
deriving DecidableEq

/-- Fields of the `host` section of the device JSON read by the library. -/
structure HostData where
  hostname : Option String := none
  fwversion : Option String := none
deriving DecidableEq

/-- One record of the `sensors` array of the device JSON. The boolean-like
fields are 0/1 integers as delivered by the device. -/
structure PortRecord where
  label : Option String := none
  output : Int := 0
  relay : Int := 0
  lock : Int := 0
  power : Option ℚ := none
  current : Option ℚ := none
  voltage : Option ℚ := none
  powerfactor : Option ℚ := none
deriving DecidableEq

/-- The combined JSON blob, restricted to the keys the library reads. -/
structure Blob where
  status : Option String := none
  host : Option HostData := none
  sensors : Option (List PortRecord) := none
deriving DecidableEq

/-- Mutable state of an MPowerDevice instance (the fields the modelled
operations read or write). -/
structure DeviceState where
  host : String
  username : String
  password : String
  cache_time : ℚ
  eu_model : Bool
  authenticated : Bool
  time : ℚ
  data : Option Blob
deriving DecidableEq

/-- Body of an HTTP request issued by the library. -/
inductive ReqBody where
  | empty
  | creds (username password : String)
  | portWrite (id : Int) (output : Int)
deriving DecidableEq

/-- An HTTP request as issued through the session wrapper. -/
structure HttpRequest where
  method : String
  path : String
  body : ReqBody
deriving DecidableEq

/-- An HTTP response: status code, the path of the final response URL
(after redirects), and the parse result of the body (`none` models a
ContentTypeError from `resp.json()`). -/
structure HttpResponse where
  status : Nat
  urlPath : String
  json : Option Blob := none
deriving DecidableEq

/-- Outcome of one attempted network round trip: either a transport-level
client error (aiohttp.ClientError, including SSL errors) or a response. -/
inductive NetResult where
  | transportError
  | response (r : HttpResponse)
deriving DecidableEq

/-- External oracles: the response delivered to the n-th request and the
value returned by the n-th `time.time()` reading. -/
structure Env where
  net : Nat → NetResult
  clock : Nat → ℚ

/-- Device state together with the observable interaction history: the list
of requests issued so far and the number of clock readings so far. -/
structure World where
  dev : DeviceState
  log : List HttpRequest
  tick : Nat
deriving DecidableEq

/-- Result of an operation on the device: outcome plus final world state
(mutations before a raise stay in place, as in Python). -/
inductive PyResult (α : Type) where
  | ok (a : α) (w : World)
  | err (e : PyErr) (w : World)
deriving DecidableEq

/-- Read `time.time()` once. -/
def now (env : Env) (w : World) : ℚ × World :=
  (env.clock w.tick, { w with tick := w.tick + 1 })

def loginPath : String := "/login.cgi"

/-- The login POST with the form fields `username` and `password`. -/
def loginReq (d : DeviceState) : HttpRequest :=
  ⟨"POST", "/login.cgi", .creds d.username d.password⟩

/-- The logout POST. -/
def logoutReq : HttpRequest := ⟨"POST", "/logout.cgi", .empty⟩

/-- The GET of the status endpoint. -/
def statusReq : HttpRequest := ⟨"GET", "/status.cgi", .empty⟩

/-- The GET of the sensors endpoint. -/
def sensorsReq : HttpRequest := ⟨"GET", "/mfi/sensors.cgi", .empty⟩

/-- The per-port control POST with the form fields `id` and `output`. -/
def writeReq (id output : Int) : HttpRequest :=
  ⟨"POST", "/mfi/sensors.cgi", .portWrite id output⟩

/-- Property `hostname`, evaluated with fuel. In the source,
`hostname` reads `host_data`, which reads `data`; when `_data` is empty,
`data` raises InvalidData with a message that formats `self.hostname`,
re-entering the same chain. Fuel 0 models the CPython recursion limit. -/
def hostnameFuel : Nat → DeviceState → Except PyErr String
  | 0, d =>
    match d.data with
    | some b => .ok ((b.host.bind HostData.hostname).getD d.host)
    | none => .error .recursionError
  | fuel + 1, d =>
    match d.data with
    | some b => .ok ((b.host.bind HostData.hostname).getD d.host)
    | none =>
      match hostnameFuel fuel d with
      | .ok _ => .error .invalidData
      | .error e => .error e

/-- Raise the error `e` whose message formats `self.hostname`: if evaluating
`hostname` itself raises, that inner error propagates instead of `e`. -/
def raiseWithHostname (fuel : Nat) (d : DeviceState) (e : PyErr) : PyErr :=
  match hostnameFuel fuel d with
  | .ok _ => e
  | .error e2 => e2

/-- Property `updated`: `bool(self._data)`. -/
def updatedProp (d : DeviceState) : Bool := d.data.isSome

/-- Property `data`: raises InvalidData (message formats `hostname`) when the
cached blob is empty. -/
def dataProp (fuel : Nat) (d : DeviceState) : Except PyErr Blob :=
  match d.data with
  | some b => .ok b
  | none => .error (raiseWithHostname fuel d .invalidData)

/-- Property `port_data`: `self.data.get("sensors", [])`. -/
def portDataProp (fuel : Nat) (d : DeviceState) : Except PyErr (List PortRecord) :=
  (dataProp fuel d).map (fun b => b.sensors.getD [])

/-- Property `ports`: `len(self.port_data)`. -/
def portsProp (fuel : Nat) (d : DeviceState) : Except PyErr Nat :=
  (portDataProp fuel d).map List.length

/-- Method `request`: appends the request to the interaction log, translates
a transport error into CannotConnect, a non-200 status into InvalidResponse
(both messages format `hostname`), and on a 200 response reassigns the
authenticated flag from the final URL path before returning the response. -/
def request (env : Env) (fuel : Nat) (w : World) (req : HttpRequest) :
    PyResult HttpResponse :=
  let w1 : World := { w with log := w.log ++ [req] }
  match env.net w.log.length with
  | .transportError => .err (raiseWithHostname fuel w.dev .cannotConnect) w1
  | .response r =>
    if r.status ≠ 200 then
      .err (raiseWithHostname fuel w.dev (.invalidResponse r.status)) w1
    else
      .ok r { w1 with dev := { w1.dev with authenticated := r.urlPath ≠ loginPath } }

/-- Method `login`: no-op when authenticated; otherwise POST the credentials
to the login endpoint and raise InvalidAuth (message formats `hostname`)
when the final response still landed on the login page. -/
def login (env : Env) (fuel : Nat) (w : World) : PyResult Unit :=
  if w.dev.authenticated then .ok () w
  else
    match request env fuel w (loginReq w.dev) with
    | .err e w1 => .err e w1
    | .ok _ w1 =>
      if w1.dev.authenticated then .ok () w1
      else .err (raiseWithHostname fuel w1.dev .invalidAuth) w1

/-- Method `logout`: POST to the logout endpoint only when authenticated. -/
def logout (env : Env) (fuel : Nat) (w : World) : PyResult Unit :=
  if w.dev.authenticated then
    match request env fuel w logoutReq with
    | .err e w1 => .err e w1
    | .ok _ w1 => .ok () w1
  else .ok () w

/-- Merge of the two JSON bodies: `data of status.cgi` updated in place with
the keys of the sensors.cgi body (`dict.update`, second response wins). -/
def mergeBlob (b1 b2 : Blob) : Blob :=
  { status := b2.status <|> b1.status
    host := b2.host <|> b1.host
    sensors := b2.sensors <|> b1.sensors }

/-- The cache condition of `update`:
`not self._data or (time.time() - self._time) > self._cache_time`, with the
Python short circuit (no clock reading when the blob is empty). -/
def fetchNeeded (env : Env) (w : World) : Bool × World :=
  match w.dev.data with
  | none => (true, w)
  | some _ =>
    let p := now env w
    (decide (p.1 - w.dev.time > w.dev.cache_time), p.2)

/-- Method `update`: ensure login, then fetch `/status.cgi` and
`/mfi/sensors.cgi` only when the cache condition holds, merge the bodies,
raise InvalidData on a parse failure or on a status field other than
"success" (messages format `hostname`), and on success store the merged
blob and a fresh clock reading together. -/
def update (env : Env) (fuel : Nat) (w : World) : PyResult Unit :=
  match login env fuel w with
  | .err e w1 => .err e w1
  | .ok _ w1 =>
    let p := fetchNeeded env w1
    if p.1 then
      match request env fuel p.2 statusReq with
      | .err e w2 => .err e w2
      | .ok r1 w2 =>
        match request env fuel w2 sensorsReq with
        | .err e w3 => .err e w3
        | .ok r2 w3 =>
          match r1.json with
          | none => .err (raiseWithHostname fuel w3.dev .invalidData) w3
          | some b1 =>
            match r2.json with
            | none => .err (raiseWithHostname fuel w3.dev .invalidData) w3
            | some b2 =>
              let data := mergeBlob b1 b2
              if data.status = some "success" then
                let q := now env w3
                .ok () { q.2 with dev := { q.2.dev with time := q.1, data := some data } }
              else .err (raiseWithHostname fuel w3.dev .invalidData) w3
    else .ok () p.2

/-- Property `model`: fixed lookup on the port count, with the regional
suffix chosen by the `eu_model` construction flag. -/
def model (fuel : Nat) (d : DeviceState) : Except PyErr String :=
  (portsProp fuel d).map (fun ports =>
    let suffixStr := if d.eu_model then " (EU)" else ""
    if ports = 1 then "mPower mini" ++ suffixStr
    else if ports = 3 then "mPower" ++ suffixStr
    else if ports = 6 ∨ ports = 8 then "mPower PRO" ++ suffixStr
    else "Unknown")

/-- Python list indexing `l[i]` with negative indices counting from the end;
`none` models an IndexError. -/
def pyIndex {α : Type} (l : List α) (i : Int) : Option α :=
  let j : Int := if i < 0 then (l.length : Int) + i else i
  if 0 ≤ j then l.get? j.toNat else none

/-- Python truthiness of an integer JSON field, `bool(x)`. -/
def pyBool (i : Int) : Bool := i ≠ 0

/-- State of an MPowerEntity (sensor or switch): the bound port number and
the cached copy of its port record. -/
structure EntityState where
  port : Int
  data : PortRecord
deriving DecidableEq

/-- Constructor `MPowerEntity.__init__`, shared by MPowerSensor and
MPowerSwitch: raises InvalidData (message formats `hostname`) when the
device was never updated, then indexes `device.port_data[port - 1]`, and
only then performs the two range checks that raise ValueError. -/
def entityInit (fuel : Nat) (d : DeviceState) (port : Int) : Except PyErr EntityState :=
  if updatedProp d = false then
    .error (raiseWithHostname fuel d .invalidData)
  else
    match portDataProp fuel d with
    | .error e => .error e
    | .ok pd =>
      match pyIndex pd (port - 1) with
      | none => .error .indexError
      | some r =>
        if port < 1 then .error (raiseWithHostname fuel d .valueError)
        else if port > (pd.length : Int) then .error (raiseWithHostname fuel d .valueError)
        else .ok ⟨port, r⟩

/-- Method `MPowerEntity.update`: refresh the device, then re-read the
entity slice of the device port data by index. -/
def entityUpdate (env : Env) (fuel : Nat) (w : World) (e : EntityState) :
    PyResult EntityState :=
  match update env fuel w with
  | .err er w1 => .err er w1
  | .ok _ w1 =>
    match portDataProp fuel w1.dev with
    | .error er => .err er w1
    | .ok pd =>
      match pyIndex pd (e.port - 1) with
      | none => .err .indexError w1
      | some r => .ok { e with data := r } w1

/-- Property `MPowerEntity.output`: `bool(self._data["output"])`. -/
def entityOutput (e : EntityState) : Bool := pyBool e.data.output

/-- Method `MPowerSwitch.set`: POST `id`/`output` to the per-port control
endpoint, then refresh the entity when the refresh flag is set. -/
def entitySet (env : Env) (fuel : Nat) (w : World) (e : EntityState)
    (output : Bool) (refresh : Bool) : PyResult EntityState :=
  match request env fuel w (writeReq e.port (if output then 1 else 0)) with
  | .err er w1 => .err er w1
  | .ok _ w1 =>
    if refresh then entityUpdate env fuel w1 e
    else .ok e w1

/-- Method `MPowerSwitch.turn_on`. -/
def turnOn (env : Env) (fuel : Nat) (w : World) (e : EntityState) (refresh : Bool) :
    PyResult EntityState :=
  entitySet env fuel w e true refresh

/-- Method `MPowerSwitch.turn_off`. -/
def turnOff (env : Env) (fuel : Nat) (w : World) (e : EntityState) (refresh : Bool) :
    PyResult EntityState :=
  entitySet env fuel w e false refresh

/-- Method `MPowerSwitch.toggle`: refresh the entity first, negate the
refreshed output value, then call `set`. -/
def toggle (env : Env) (fuel : Nat) (w : World) (e : EntityState) (refresh : Bool) :
    PyResult EntityState :=
  match entityUpdate env fuel w e with
  | .err er w1 => .err er w1
  | .ok e1 w1 => entitySet env fuel w1 e1 (!(pyBool e1.data.output)) refresh

/-- The list comprehension `[MPowerSwitch(self, i + 1) for i in range(self.ports)]`:
constructors run left to right and the first raise aborts the whole list. -/
def initSwitches (fuel : Nat) (d : DeviceState) : List Nat → Except PyErr (List EntityState)
  | [] => .ok []
  | i :: rest =>
    match entityInit fuel d ((i : Int) + 1) with
    | .error e => .error e
    | .ok s =>
      match initSwitches fuel d rest with
      | .error e => .error e
      | .ok ss => .ok (s :: ss)

/-- Method `MPowerDevice.create_switches`: update the device when it was
never updated, then construct one switch per port, ports numbered from 1. -/
def createSwitches (env : Env) (fuel : Nat) (w : World) : PyResult (List EntityState) :=
  let step := if updatedProp w.dev then PyResult.ok () w else update env fuel w
  match step with
  | .err e w1 => .err e w1
  | .ok _ w1 =>
    match portsProp fuel w1.dev with
    | .error e => .err e w1
    | .ok ports =>
      match initSwitches fuel w1.dev (List.range ports) with
      | .error e => .err e w1
      | .ok es => .ok es w1

/-- Per-key rounding precision of MPowerSensor, `None` meaning no rounding. -/
structure Precision where
  power : Option Int := none
  current : Option Int := none
  voltage : Option Int := none
  powerfactor : Option Int := none
deriving DecidableEq

/-- The class-level default `_precision` dictionary: every key maps to None. -/
def defaultPrecision : Precision := {}

/-- Lookup `self._data.get(key, 0)` restricted to the sensor value keys. -/
def recGet (r : PortRecord) : String → Option ℚ
  | "power" => r.power
  | "current" => r.current
  | "voltage" => r.voltage
  | "powerfactor" => r.powerfactor
  | _ => none

/-- Lookup `self.precision.get(key, None)`. -/
def precGet (p : Precision) : String → Option Int
  | "power" => p.power
  | "current" => p.current
  | "voltage" => p.voltage
  | "powerfactor" => p.powerfactor
  | _ => none

/-- Round half to even on rationals, the tie-breaking rule of Python round. -/
def roundHalfEven (x : ℚ) : Int :=
  let f := Int.floor x
  let frac := x - f
  if frac < 1/2 then f
  else if frac > 1/2 then f + 1
  else if Even f then f else f + 1

/-- Python `round(value, n)` on the rational model of the float values. -/
def pyRound (x : ℚ) (n : Int) : ℚ :=
  roundHalfEven (x * (10 : ℚ) ^ n) / (10 : ℚ) ^ n

/-- Method `MPowerSensor._value`: scale the raw field (0 when missing) and
round only when a precision is configured for the key. -/
def sensorValue (p : Precision) (r : PortRecord) (key : String) (scale : ℚ) : ℚ :=
  let value := scale * ((recGet r key).getD 0)
  match precGet p key with
  | some n => pyRound value n
  | none => value

/-- Property `MPowerSensor.power`. -/
def sensorPower (p : Precision) (r : PortRecord) : ℚ := sensorValue p r "power" 1

/-- Property `MPowerSensor.current`. -/
def sensorCurrent (p : Precision) (r : PortRecord) : ℚ := sensorValue p r "current" 1

/-- Property `MPowerSensor.voltage`. -/
def sensorVoltage (p : Precision) (r : PortRecord) : ℚ := sensorValue p r "voltage" 1

/-- Property `MPowerSensor.powerfactor`: scale 100. -/
def sensorPowerfactor (p : Precision) (r : PortRecord) : ℚ :=
  sensorValue p r "powerfactor" 100

/-! Concrete fixtures used by counterexamples and witnesses. -/

/-- Port record of a switched-off outlet with sensor readings. -/
def rec1 : PortRecord :=
  { label := some "Outlet 1", output := 0, relay := 0, lock := 0,
    power := some (25 / 2), current := some (1 / 10), voltage := some 230,
    powerfactor := some (9 / 10) }

/-- Port record of a switched-on outlet. -/
def rec2 : PortRecord := { label := some "Outlet 2", output := 1 }

/-- Port record of a third, switched-off outlet. -/
def rec3 : PortRecord := { label := some "Outlet 3", output := 0 }

/-- A complete successful three-port blob. -/
def blob3 : Blob :=
  { status := some "success",
    host := some { hostname := some "mpower-lab" },
    sensors := some [rec1, rec2, rec3] }

/-- A device that has been fetched once (cache interval 100, last fetch 0). -/
def dev3 : DeviceState :=
  { host := "10.0.0.5", username := "ubnt", password := "ubnt",
    cache_time := 100, eu_model := false, authenticated := true,
    time := 0, data := some blob3 }

/-- World of `dev3` with an empty interaction history. -/
def w3 : World := { dev := dev3, log := [], tick := 0 }

/-- A freshly constructed device: empty blob, not authenticated. -/
def devFresh : DeviceState := { dev3 with authenticated := false, data := none }

/-- World of `devFresh` with an empty interaction history. -/
def wFresh : World := { dev := devFresh, log := [], tick := 0 }

/-- Network that always fails at the transport layer. -/
def envTrans : Env := { net := fun _ => .transportError, clock := fun _ => 0 }

/-- Network whose responses always land back on the login page. -/
def envLoginPage : Env :=
  { net := fun _ => .response { status := 200, urlPath := "/login.cgi" },
    clock := fun _ => 0 }

/-- Network for a logout whose final response stays on the logout page. -/
def envStay : Env :=
  { net := fun _ => .response { status := 200, urlPath := "/logout.cgi" },
    clock := fun _ => 0 }

/-- Network whose responses carry a non-200 HTTP status. -/
def envDown : Env :=
  { net := fun _ => .response { status := 500, urlPath := "/mfi/sensors.cgi" },
    clock := fun _ => 0 }

/-- Body of the status endpoint in the bad-status scenario. -/
def blobBadStatus : Blob := { status := some "error" }

/-- Network for a first update whose merged JSON status is not "success":
login succeeds, both fetches return 200 with parseable JSON. -/
def envBadStatus : Env :=
  { net := fun n =>
      match n with
      | 0 => .response { status := 200, urlPath := "/power" }
      | 1 => .response { status := 200, urlPath := "/status.cgi", json := some blobBadStatus }
      | _ => .response { status := 200, urlPath := "/mfi/sensors.cgi", json := some {} },
    clock := fun _ => 0 }

/-- Network for the concrete switch scenario: every write is accepted. -/
def envC8 : Env :=
  { net := fun _ => .response { status := 200, urlPath := "/mfi/sensors.cgi" },
    clock := fun _ => 50 }

/-- A device with a cached blob that is not authenticated any more. -/
def dev3out : DeviceState := { dev3 with authenticated := false }

/-- World of `dev3out` with an empty interaction history. -/
def w3out : World := { dev := dev3out, log := [], tick := 0 }

/-- An unrelated earlier request, used to populate interaction histories. -/
def pingReq : HttpRequest := ⟨"GET", "/ping", .empty⟩

/-- World of `dev3` whose ninth clock reading lies beyond the interval. -/
def wStale : World := { dev := dev3, log := [pingReq], tick := 9 }

/-- Body delivered by the status endpoint on the successful first fetch. -/
def bS1 : Blob :=
  { status := some "success", host := some { hostname := some "mpower-lab" } }

/-- Body delivered by the sensors endpoint on the successful first fetch. -/
def bE1 : Blob := { status := some "success", sensors := some [rec1, rec2, rec3] }

/-- Login response of the successful first fetch. -/
def rLogin1 : HttpResponse := { status := 200, urlPath := "/power" }

/-- Status endpoint response of the successful first fetch. -/
def rStatus1 : HttpResponse :=
  { status := 200, urlPath := "/status.cgi", json := some bS1 }

/-- Sensors endpoint response of the successful first fetch. -/
def rSensors1 : HttpResponse :=
  { status := 200, urlPath := "/mfi/sensors.cgi", json := some bE1 }

/-- Network and clock for a stale-cache refetch whose merged status is not
"success": no login is needed, both fetches return 200 with parseable JSON. -/
def envC2a : Env :=
  { net := fun n =>
      match n with
      | 0 => .response { status := 200, urlPath := "/status.cgi", json := some blobBadStatus }
      | _ => .response { status := 200, urlPath := "/mfi/sensors.cgi", json := some {} },
    clock := fun _ => 201 }

/-- Network and clock for the cache scenario: responses 0, 1, 2 are the login
and the two telemetry fetches; clock reading 9 lies beyond the interval. -/
def envC1 : Env :=
  { net := fun n =>
      match n with
      | 0 => .response rLogin1
      | 1 => .response rStatus1
      | _ => .response rSensors1,
    clock := fun t => if t = 9 then 201 else if t = 10 then 250 else 50 }

/-! Helper lemmas about the hostname recursion and the request wrapper. -/

theorem hostnameFuel_none (fuel : Nat) (d : DeviceState) (h : d.data = none) :
    hostnameFuel fuel d = .error .recursionError := by
  induction fuel with
  | zero => simp [hostnameFuel, h]
  | succ n ih => simp [hostnameFuel, h, ih]

theorem hostnameFuel_some (fuel : Nat) (d : DeviceState) (b : Blob)
    (h : d.data = some b) :
    hostnameFuel fuel d = .ok ((b.host.bind HostData.hostname).getD d.host) := by
  cases fuel <;> simp [hostnameFuel, h]

theorem raiseWithHostname_none (fuel : Nat) (d : DeviceState) (e : PyErr)
    (h : d.data = none) : raiseWithHostname fuel d e = .recursionError := by
  simp [raiseWithHostname, hostnameFuel_none fuel d h]

theorem raiseWithHostname_some (fuel : Nat) (d : DeviceState) (b : Blob) (e : PyErr)
    (h : d.data = some b) : raiseWithHostname fuel d e = e := by
  simp [raiseWithHostname, hostnameFuel_some fuel d b h]

theorem request_200 (env : Env) (fuel : Nat) (w : World) (req : HttpRequest)
    (r : HttpResponse) (hnet : env.net w.log.length = .response r)
    (hst : r.status = 200) :
    request env fuel w req =
      .ok r { dev := { w.dev with authenticated := decide (r.urlPath ≠ loginPath) },
              log := w.log ++ [req], tick := w.tick } := by
  simp [request, hnet, hst]

theorem request_transport (env : Env) (fuel : Nat) (w : World) (req : HttpRequest)
    (hnet : env.net w.log.length = .transportError) :
    request env fuel w req =
      .err (raiseWithHostname fuel w.dev .cannotConnect)
        { w with log := w.log ++ [req] } := by
  simp [request, hnet]

theorem request_non200 (env : Env) (fuel : Nat) (w : World) (req : HttpRequest)
    (r : HttpResponse) (hnet : env.net w.log.length = .response r)
    (hst : r.status ≠ 200) :
    request env fuel w req =
      .err (raiseWithHostname fuel w.dev (.invalidResponse r.status))
        { w with log := w.log ++ [req] } := by
  simp [request, hnet, hst]

/-- C9: with the default (all None) precision dictionary, the powerfactor
property is 100 times the raw powerfactor field, and the power, current and
voltage properties are the raw field values with scale 1 and no rounding. -/
theorem c9_sensor_values (r : PortRecord) :
    sensorPowerfactor defaultPrecision r = 100 * (r.powerfactor.getD 0) ∧
    sensorPower defaultPrecision r = r.power.getD 0 ∧
    sensorCurrent defaultPrecision r = r.current.getD 0 ∧
    sensorVoltage defaultPrecision r = r.voltage.getD 0 := by
  refine ⟨?_, ?_, ?_, ?_⟩ <;>
    simp [sensorPowerfactor, sensorPower, sensorCurrent, sensorVoltage,
      sensorValue, recGet, precGet, defaultPrecision]

/-- Witness for C9 at the concrete record `rec1`. -/
theorem c9_sensor_values_witness :
    sensorPowerfactor defaultPrecision rec1 = 90 ∧
    sensorPower defaultPrecision rec1 = 25 / 2 ∧
    sensorCurrent defaultPrecision rec1 = 1 / 10 ∧
    sensorVoltage defaultPrecision rec1 = 230 := by
  have h := c9_sensor_values rec1
  refine ⟨?_, ?_, ?_, ?_⟩
  · rw [h.1]; norm_num [rec1]
  · rw [h.2.1]; norm_num [rec1]
  · rw [h.2.2.1]; norm_num [rec1]
  · rw [h.2.2.2]; norm_num [rec1]

/-- C6: the model accessor is a fixed lookup by port count (1 is mini, 3 is
the base model, 6 or 8 is PRO) with the regional suffix appended exactly
when the EU flag was set at construction; any other count gives Unknown. -/
theorem c6_model_lookup (fuel : Nat) (d : DeviceState) (b : Blob)
    (h : d.data = some b) :
    ((b.sensors.getD []).length = 1 →
      model fuel d = .ok (if d.eu_model then "mPower mini (EU)" else "mPower mini")) ∧
    ((b.sensors.getD []).length = 3 →
      model fuel d = .ok (if d.eu_model then "mPower (EU)" else "mPower")) ∧
    ((b.sensors.getD []).length = 6 ∨ (b.sensors.getD []).length = 8 →
      model fuel d = .ok (if d.eu_model then "mPower PRO (EU)" else "mPower PRO")) ∧
    (¬ ((b.sensors.getD []).length = 1 ∨ (b.sensors.getD []).length = 3 ∨
        (b.sensors.getD []).length = 6 ∨ (b.sensors.getD []).length = 8) →
      model fuel d = .ok "Unknown") := by
  refine ⟨?_, ?_, ?_, ?_⟩
  · intro hp
    cases heu : d.eu_model <;>
      simp [model, portsProp, portDataProp, dataProp, Except.map, h, hp, heu]
  · intro hp
    cases heu : d.eu_model <;>
      simp [model, portsProp, portDataProp, dataProp, Except.map, h, hp, heu]
  · intro hp
    rcases hp with hp | hp <;> cases heu : d.eu_model <;>
      simp [model, portsProp, portDataProp, dataProp, Except.map, h, hp, heu]
  · intro hp
    push_neg at hp
    obtain ⟨n1, n3, n6, n8⟩ := hp
    simp [model, portsProp, portDataProp, dataProp, Except.map, h, n1, n3, n6, n8]

/-- Witness for C6 at the three-port non-EU device `dev3`. -/
theorem c6_model_lookup_witness :
    model 0 dev3 = .ok (if dev3.eu_model then "mPower (EU)" else "mPower") :=
  (c6_model_lookup 0 dev3 blob3 rfl).2.1 (by decide)

/-- C10: after every request returning HTTP 200, the authenticated flag is
reassigned, false exactly when the final response URL path is the login
page; the POST issued by logout goes through the same reassignment. -/
theorem c10_auth_flag (env : Env) (fuel : Nat) (w : World) (req : HttpRequest)
    (r : HttpResponse) (hnet : env.net w.log.length = .response r)
    (hst : r.status = 200) :
    (∃ w1, request env fuel w req = .ok r w1 ∧
       (w1.dev.authenticated = false ↔ r.urlPath = loginPath) ∧
       w1.dev.data = w.dev.data ∧ w1.dev.time = w.dev.time) ∧
    (w.dev.authenticated = true →
       ∃ w2, logout env fuel w = .ok () w2 ∧
         (w2.dev.authenticated = false ↔ r.urlPath = loginPath)) := by
  have hreq := request_200 env fuel w req r hnet hst
  have hout := request_200 env fuel w logoutReq r hnet hst
  constructor
  · exact ⟨_, hreq, by simp, rfl, rfl⟩
  · intro hauth
    exact ⟨{ dev := { w.dev with authenticated := decide (r.urlPath ≠ loginPath) },
             log := w.log ++ [logoutReq], tick := w.tick },
           by simp [logout, hauth, hout], by simp⟩

/-- Witness for C10: a 200 response landing on the logout page keeps the
flag set, both for a plain request and for the logout POST. -/
theorem c10_auth_flag_witness :
    (∃ w1, request envStay 0 w3 statusReq =
       .ok { status := 200, urlPath := "/logout.cgi", json := none } w1 ∧
       (w1.dev.authenticated = false ↔
         ({ status := 200, urlPath := "/logout.cgi", json := none } : HttpResponse).urlPath
           = loginPath) ∧
       w1.dev.data = w3.dev.data ∧ w1.dev.time = w3.dev.time) ∧
    (w3.dev.authenticated = true →
       ∃ w2, logout envStay 0 w3 = .ok () w2 ∧
         (w2.dev.authenticated = false ↔
           ({ status := 200, urlPath := "/logout.cgi", json := none } : HttpResponse).urlPath
             = loginPath)) :=
  c10_auth_flag envStay 0 w3 statusReq
    { status := 200, urlPath := "/logout.cgi", json := none } rfl rfl

/-- C3: entity construction before any successful fetch, and out-of-range
ports, fail at construction time; however, on the code the never-updated
case raises RecursionError instead of InvalidData (its message formats the
hostname property, which recurses on an empty blob), and a port above the
port count raises IndexError from the list indexing performed before the
range checks (the too-large ValueError branch is unreachable); port 0 does
raise ValueError, and an in-range port succeeds. -/
theorem c3_entity_init (fuel : Nat) :
    entityInit fuel devFresh 1 = .error .recursionError ∧
    entityInit fuel dev3 0 = .error .valueError ∧
    entityInit fuel dev3 4 = .error .indexError ∧
    entityInit fuel dev3 2 = .ok ⟨2, rec2⟩ := by
  have hpd : portDataProp fuel dev3 = .ok [rec1, rec2, rec3] := by
    simp [portDataProp, dataProp, Except.map, dev3, blob3]
  refine ⟨?_, ?_, ?_, ?_⟩
  · simp [entityInit, show updatedProp devFresh = false from rfl,
      raiseWithHostname_none fuel devFresh PyErr.invalidData rfl]
  · simp [entityInit, show updatedProp dev3 = true from rfl, hpd, pyIndex,
      raiseWithHostname_some fuel dev3 blob3 PyErr.valueError rfl]
  · simp [entityInit, show updatedProp dev3 = true from rfl, hpd, pyIndex]
  · simp [entityInit, show updatedProp dev3 = true from rfl, hpd, pyIndex]

/-- Witness for C3 at recursion depth 0. -/
theorem c3_entity_init_witness :
    entityInit 0 devFresh 1 = .error .recursionError ∧
    entityInit 0 dev3 0 = .error .valueError ∧
    entityInit 0 dev3 4 = .error .indexError ∧
    entityInit 0 dev3 2 = .ok ⟨2, rec2⟩ :=
  c3_entity_init 0

/-- C4: login failure semantics. On the code, a transport failure or a
response still landing on the login page during a first login raises
RecursionError (the CannotConnect and InvalidAuth messages format the
hostname property, which recurses on an empty blob); once a blob has been
cached the intended behavior holds: a transport failure raises
CannotConnect, a response landing on the login page raises InvalidAuth, and
the device stays not authenticated in every failure case. -/
theorem c4_login_failures (fuel : Nat) :
    (login envTrans fuel wFresh =
       .err .recursionError { wFresh with log := [loginReq devFresh] } ∧
     login envLoginPage fuel wFresh =
       .err .recursionError
         { dev := devFresh, log := [loginReq devFresh], tick := 0 }) ∧
    (∀ (env : Env) (w : World) (b : Blob), w.dev.data = some b →
       w.dev.authenticated = false →
       (env.net w.log.length = .transportError →
         login env fuel w =
           .err .cannotConnect { w with log := w.log ++ [loginReq w.dev] }) ∧
       (∀ r : HttpResponse, env.net w.log.length = .response r → r.status = 200 →
         r.urlPath = loginPath →
         login env fuel w =
           .err .invalidAuth
             { dev := { w.dev with authenticated := false },
               log := w.log ++ [loginReq w.dev], tick := w.tick })) := by
  refine ⟨⟨?_, ?_⟩, ?_⟩
  · simp [login, request, envTrans,
      show wFresh.dev = devFresh from rfl,
      show wFresh.log = ([] : List HttpRequest) from rfl,
      show devFresh.authenticated = false from rfl,
      raiseWithHostname_none fuel devFresh PyErr.cannotConnect rfl]
  · simp [login, request, envLoginPage, loginPath,
      show wFresh.dev = devFresh from rfl,
      show wFresh.log = ([] : List HttpRequest) from rfl,
      show wFresh.tick = 0 from rfl,
      show devFresh.authenticated = false from rfl,
      show ({ devFresh with authenticated := false } : DeviceState) = devFresh from rfl,
      raiseWithHostname_none fuel devFresh PyErr.invalidAuth rfl]
  · intro env w b hb hauth
    constructor
    · intro hnet
      simp [login, hauth, request_transport env fuel w (loginReq w.dev) hnet,
        raiseWithHostname_some fuel w.dev b PyErr.cannotConnect hb]
    · intro r hnet hst hpath
      simp [login, hauth, request_200 env fuel w (loginReq w.dev) r hnet hst, hpath,
        raiseWithHostname_some fuel { w.dev with authenticated := false } b
          PyErr.invalidAuth hb]

/-- Witness for C4 at recursion depth 0, with the cached-blob cases taken at
the not-authenticated device `dev3out`. -/
theorem c4_login_failures_witness :
    login envTrans 0 wFresh =
      .err .recursionError { wFresh with log := [loginReq devFresh] } ∧
    login envLoginPage 0 wFresh =
      .err .recursionError { dev := devFresh, log := [loginReq devFresh], tick := 0 } ∧
    login envTrans 0 w3out =
      .err .cannotConnect { w3out with log := w3out.log ++ [loginReq w3out.dev] } ∧
    login envLoginPage 0 w3out =
      .err .invalidAuth
        { dev := { w3out.dev with authenticated := false },
          log := w3out.log ++ [loginReq w3out.dev], tick := w3out.tick } := by
  have h := c4_login_failures 0
  exact ⟨h.1.1, h.1.2,
    (h.2 envTrans w3out blob3 rfl rfl).1 rfl,
    (h.2 envLoginPage w3out blob3 rfl rfl).2
      { status := 200, urlPath := "/login.cgi" } rfl rfl rfl⟩

/-- C5 counterexample: an authenticated logout whose 200 response lands on
the logout page (not the login page) keeps the authenticated flag set, so
logout does not clear the flag regardless of the response details. -/
theorem c5_logout_counterexample :
    logout envStay 0 w3 = .ok () { dev := dev3, log := [logoutReq], tick := 0 } ∧
    dev3.authenticated = true := by
  constructor
  · simp [logout, request, envStay, loginPath,
      show w3.dev = dev3 from rfl, show dev3.authenticated = true from rfl,
      show w3.log = ([] : List HttpRequest) from rfl,
      show w3.tick = 0 from rfl,
      show ({ dev3 with authenticated := true } : DeviceState) = dev3 from rfl]
  · rfl

/-- C5 amended: logout is a no-op when not authenticated; otherwise it POSTs
to the logout endpoint and the authenticated flag is reassigned from the
final response URL path, cleared exactly when that path is the login page;
a transport error or a non-200 response raises an exception and leaves the
flag, and every other device field, unchanged (only the issued POST is
recorded). -/
theorem c5_logout_behavior (env : Env) (fuel : Nat) (w : World) :
    (w.dev.authenticated = false → logout env fuel w = .ok () w) ∧
    (∀ r : HttpResponse, w.dev.authenticated = true →
      env.net w.log.length = .response r → r.status = 200 →
      logout env fuel w =
        .ok () { dev := { w.dev with authenticated := decide (r.urlPath ≠ loginPath) },
                 log := w.log ++ [logoutReq], tick := w.tick }) ∧
    (w.dev.authenticated = true → env.net w.log.length = .transportError →
      ∃ e : PyErr, logout env fuel w = .err e { w with log := w.log ++ [logoutReq] }) ∧
    (∀ r : HttpResponse, w.dev.authenticated = true →
      env.net w.log.length = .response r → r.status ≠ 200 →
      ∃ e : PyErr, logout env fuel w = .err e { w with log := w.log ++ [logoutReq] }) := by
  refine ⟨?_, ?_, ?_, ?_⟩
  · intro hauth
    simp [logout, hauth]
  · intro r hauth hnet hst
    simp [logout, hauth, request_200 env fuel w logoutReq r hnet hst]
  · intro hauth hnet
    exact ⟨raiseWithHostname fuel w.dev .cannotConnect,
      by simp [logout, hauth, request_transport env fuel w logoutReq hnet]⟩
  · intro r hauth hnet hst
    exact ⟨raiseWithHostname fuel w.dev (.invalidResponse r.status),
      by simp [logout, hauth, request_non200 env fuel w logoutReq r hnet hst]⟩

/-- Witness for C5: the no-op case, a logout whose response lands on the
login page, a transport failure during logout, and a 500 response. -/
theorem c5_logout_behavior_witness :
    logout envStay 0 w3out = .ok () w3out ∧
    logout envLoginPage 0 w3 =
      .ok () { dev := { w3.dev with
                 authenticated := decide (("/login.cgi" : String) ≠ loginPath) },
               log := w3.log ++ [logoutReq], tick := w3.tick } ∧
    (∃ e : PyErr, logout envTrans 0 w3 =
      .err e { w3 with log := w3.log ++ [logoutReq] }) ∧
    (∃ e : PyErr, logout envDown 0 w3 =
      .err e { w3 with log := w3.log ++ [logoutReq] }) :=
  ⟨(c5_logout_behavior envStay 0 w3out).1 rfl,
   (c5_logout_behavior envLoginPage 0 w3).2.1
     { status := 200, urlPath := "/login.cgi" } rfl rfl rfl,
   (c5_logout_behavior envTrans 0 w3).2.2.1 rfl rfl,
   (c5_logout_behavior envDown 0 w3).2.2.2
     { status := 500, urlPath := "/mfi/sensors.cgi" } rfl rfl (by decide)⟩

/-- C1: update ensures login first and contacts the network only when the
blob is empty or stale. First conjunct: a first update on a fresh device
issues the login POST and the two telemetry GETs and on success stores the
merged blob and a fresh clock reading together. Second conjunct: an update
within the cache interval issues no request at all. Third conjunct: an
update after the interval elapses issues the two GETs again and again
replaces the blob and the timestamp together. -/
theorem c1_update_cache (env : Env) (fuel : Nat) (w : World)
    (rL rS rE : HttpResponse) (b1 b2 : Blob)
    (hdata : w.dev.data = none) (hauth : w.dev.authenticated = false)
    (h0 : env.net w.log.length = .response rL) (h0s : rL.status = 200)
    (h0p : rL.urlPath ≠ loginPath)
    (h1 : env.net (w.log.length + 1) = .response rS) (h1s : rS.status = 200)
    (h1j : rS.json = some b1) (h1p : rS.urlPath ≠ loginPath)
    (h2 : env.net (w.log.length + 1 + 1) = .response rE) (h2s : rE.status = 200)
    (h2j : rE.json = some b2) (h2p : rE.urlPath ≠ loginPath)
    (hsucc : (mergeBlob b1 b2).status = some "success") :
    (update env fuel w =
       .ok () { dev := { w.dev with
                  authenticated := true,
                  time := env.clock w.tick,
                  data := some (mergeBlob b1 b2) },
                log := w.log ++ [loginReq w.dev, statusReq, sensorsReq],
                tick := w.tick + 1 }) ∧
    (∀ (w2 : World) (b0 : Blob), w2.dev.data = some b0 →
       w2.dev.authenticated = true →
       env.clock w2.tick - w2.dev.time ≤ w2.dev.cache_time →
       update env fuel w2 = .ok () { w2 with tick := w2.tick + 1 }) ∧
    (∀ (w2 : World) (b0 : Blob), w2.dev.data = some b0 →
       w2.dev.authenticated = true →
       env.clock w2.tick - w2.dev.time > w2.dev.cache_time →
       env.net w2.log.length = .response rS →
       env.net (w2.log.length + 1) = .response rE →
       update env fuel w2 =
         .ok () { dev := { w2.dev with
                    authenticated := true,
                    time := env.clock (w2.tick + 1),
                    data := some (mergeBlob b1 b2) },
                  log := w2.log ++ [statusReq, sensorsReq],
                  tick := w2.tick + 1 + 1 }) := by
  refine ⟨?_, ?_, ?_⟩
  · simp [update, login, hauth, request, fetchNeeded, now, hdata,
      h0, h0s, h0p, h1, h1s, h1j, h1p, h2, h2s, h2j, h2p, hsucc]
  · intro w2 b0 hb hauth2 hcache
    have hn : ¬ (env.clock w2.tick - w2.dev.time > w2.dev.cache_time) :=
      not_lt.mpr hcache
    simp [update, login, hauth2, fetchNeeded, now, hb, hn]
  · intro w2 b0 hb hauth2 hcache hn1 hn2
    simp [update, login, hauth2, fetchNeeded, now, hb, hcache, request,
      hn1, h1s, h1j, h1p, hn2, h2s, h2j, h2p, hsucc]

/-- Witness for C1: the first fetch on a fresh device, a warm-cache call on
`w3`, and a stale-cache call on `wStale`. -/
theorem c1_update_cache_witness :
    update envC1 0 wFresh =
      .ok () { dev := { wFresh.dev with
                 authenticated := true,
                 time := envC1.clock wFresh.tick,
                 data := some (mergeBlob bS1 bE1) },
               log := wFresh.log ++ [loginReq wFresh.dev, statusReq, sensorsReq],
               tick := wFresh.tick + 1 } ∧
    update envC1 0 w3 = .ok () { w3 with tick := w3.tick + 1 } ∧
    update envC1 0 wStale =
      .ok () { dev := { wStale.dev with
                 authenticated := true,
                 time := envC1.clock (wStale.tick + 1),
                 data := some (mergeBlob bS1 bE1) },
               log := wStale.log ++ [statusReq, sensorsReq],
               tick := wStale.tick + 1 + 1 } := by
  have h := c1_update_cache envC1 0 wFresh rLogin1 rStatus1 rSensors1 bS1 bE1
    rfl rfl rfl rfl (by decide) rfl rfl rfl (by decide) rfl rfl rfl (by decide) rfl
  exact ⟨h.1,
    h.2.1 w3 blob3 rfl rfl (by norm_num [envC1, w3, dev3]),
    h.2.2 wStale blob3 rfl rfl (by norm_num [envC1, wStale, dev3]) rfl rfl⟩

/-- C2: a fetch whose merged JSON status is not the success literal. First
conjunct: with a previously cached blob, update raises InvalidData and the
resulting state keeps the cached blob and the last-fetch timestamp exactly
as they were. Second conjunct: on a never-updated device the code instead
raises RecursionError, because the InvalidData message formats the hostname
property, which recurses on an empty blob. -/
theorem c2_bad_status (fuel : Nat) :
    (∀ (env : Env) (w : World) (b0 b1 b2 : Blob) (rS rE : HttpResponse),
      w.dev.data = some b0 → w.dev.authenticated = true →
      env.clock w.tick - w.dev.time > w.dev.cache_time →
      env.net w.log.length = .response rS → rS.status = 200 → rS.json = some b1 →
      env.net (w.log.length + 1) = .response rE → rE.status = 200 → rE.json = some b2 →
      (mergeBlob b1 b2).status ≠ some "success" →
      update env fuel w =
        .err .invalidData
          { dev := { w.dev with authenticated := decide (rE.urlPath ≠ loginPath) },
            log := w.log ++ [statusReq, sensorsReq], tick := w.tick + 1 }) ∧
    (update envBadStatus fuel wFresh =
      .err .recursionError
        { dev := { devFresh with authenticated := true },
          log := [loginReq devFresh, statusReq, sensorsReq], tick := 0 }) := by
  constructor
  · intro env w b0 b1 b2 rS rE hb hauth hcache hn1 h1s h1j hn2 h2s h2j hbad
    simp [update, login, hauth, fetchNeeded, now, hb, hcache, request,
      hn1, h1s, h1j, hn2, h2s, h2j, hbad]
    exact raiseWithHostname_some fuel _ b0 PyErr.invalidData rfl
  · simp [update, login, request, envBadStatus, fetchNeeded, now, loginPath,
      mergeBlob, blobBadStatus,
      show wFresh.dev = devFresh from rfl,
      show wFresh.log = ([] : List HttpRequest) from rfl,
      show wFresh.tick = 0 from rfl,
      show devFresh.authenticated = false from rfl,
      show devFresh.data = (none : Option Blob) from rfl]
    exact raiseWithHostname_none fuel _ PyErr.invalidData rfl

/-- Witness for C2: a stale-cache refetch of `w3` receiving status "error",
and the fresh-device fetch receiving status "error". -/
theorem c2_bad_status_witness :
    update envC2a 0 w3 =
      .err .invalidData
        { dev := { w3.dev with
            authenticated := decide (("/mfi/sensors.cgi" : String) ≠ loginPath) },
          log := w3.log ++ [statusReq, sensorsReq], tick := w3.tick + 1 } ∧
    update envBadStatus 0 wFresh =
      .err .recursionError
        { dev := { devFresh with authenticated := true },
          log := [loginReq devFresh, statusReq, sensorsReq], tick := 0 } := by
  have h := c2_bad_status 0
  exact ⟨h.1 envC2a w3 blob3 blobBadStatus {}
      { status := 200, urlPath := "/status.cgi", json := some blobBadStatus }
      { status := 200, urlPath := "/mfi/sensors.cgi", json := some {} }
      rfl rfl (by norm_num [envC2a, w3, dev3]) rfl rfl rfl rfl rfl rfl (by decide),
    h.2⟩

/-- C7: toggle first re-fetches the entity state through update, then issues
exactly one write POST whose output field is the logical negation of the
refreshed output state, followed by a further cache refresh exactly when the
refresh flag is set; with a warm cache neither refresh contacts the network,
so the write POST is the only request issued. -/
theorem c7_toggle_negates (env : Env) (fuel : Nat) (w : World) (e : EntityState)
    (b : Blob) (r : PortRecord) (rw : HttpResponse)
    (hdata : w.dev.data = some b) (hauth : w.dev.authenticated = true)
    (hidx : pyIndex (b.sensors.getD []) (e.port - 1) = some r)
    (hc1 : env.clock w.tick - w.dev.time ≤ w.dev.cache_time)
    (hnet : env.net w.log.length = .response rw) (hst : rw.status = 200)
    (hp : rw.urlPath ≠ loginPath)
    (hc2 : env.clock (w.tick + 1) - w.dev.time ≤ w.dev.cache_time) :
    (toggle env fuel w e false =
       .ok { e with data := r }
         { dev := { w.dev with authenticated := true },
           log := w.log ++ [writeReq e.port (if pyBool r.output then 0 else 1)],
           tick := w.tick + 1 }) ∧
    (toggle env fuel w e true =
       .ok { e with data := r }
         { dev := { w.dev with authenticated := true },
           log := w.log ++ [writeReq e.port (if pyBool r.output then 0 else 1)],
           tick := w.tick + 1 + 1 }) := by
  have hn1 : ¬ (env.clock w.tick - w.dev.time > w.dev.cache_time) := not_lt.mpr hc1
  have hn2 : ¬ (env.clock (w.tick + 1) - w.dev.time > w.dev.cache_time) :=
    not_lt.mpr hc2
  constructor
  · cases ho : pyBool r.output <;>
      simp [toggle, entityUpdate, update, login, hauth, fetchNeeded, now, hdata,
        hn1, portDataProp, dataProp, Except.map, hidx, entitySet, request, hnet,
        hst, hp, ho]
  · cases ho : pyBool r.output <;>
      simp [toggle, entityUpdate, update, login, hauth, fetchNeeded, now, hdata,
        hn1, hn2, portDataProp, dataProp, Except.map, hidx, entitySet, request,
        hnet, hst, hp, ho]

/-- Witness for C7 at the switched-off first port of `w3`: the single write
carries output=1. -/
theorem c7_toggle_negates_witness :
    toggle envC8 0 w3 ⟨1, rec1⟩ false =
      .ok ⟨1, rec1⟩ { dev := { w3.dev with authenticated := true },
                      log := [writeReq 1 1], tick := 1 } ∧
    toggle envC8 0 w3 ⟨1, rec1⟩ true =
      .ok ⟨1, rec1⟩ { dev := { w3.dev with authenticated := true },
                      log := [writeReq 1 1], tick := 2 } := by
  have h := c7_toggle_negates envC8 0 w3 ⟨1, rec1⟩ blob3 rec1
    { status := 200, urlPath := "/mfi/sensors.cgi", json := none }
    rfl rfl rfl (by norm_num [envC8, w3, dev3]) rfl rfl (by decide)
    (by norm_num [envC8, w3, dev3])
  exact ⟨h.1, h.2⟩

/-- C8: with the three-port blob whose second record reports output on,
create_switches returns exactly three switches bound to ports 1, 2 and 3,
the second switch reports output=true, and its turn_off issues exactly one
POST to the per-port control endpoint with id=2 and output=0 (the warm-cache
refresh contacts no endpoint). -/
theorem c8_switch_scenario :
    createSwitches envC8 0 w3 = .ok [⟨1, rec1⟩, ⟨2, rec2⟩, ⟨3, rec3⟩] w3 ∧
    entityOutput ⟨2, rec2⟩ = true ∧
    turnOff envC8 0 w3 ⟨2, rec2⟩ true =
      .ok ⟨2, rec2⟩ { dev := dev3, log := [writeReq 2 0], tick := 1 } := by
  have hw3 : w3.dev = dev3 := rfl
  have hup : updatedProp dev3 = true := rfl
  have hpd : portDataProp 0 dev3 = .ok [rec1, rec2, rec3] := by
    simp [portDataProp, dataProp, Except.map, dev3, blob3]
  have hps : portsProp 0 dev3 = .ok 3 := by
    simp [portsProp, hpd, Except.map]
  have he1 : entityInit 0 dev3 1 = .ok ⟨1, rec1⟩ := by
    simp [entityInit, hup, hpd, pyIndex]
  have he2 : entityInit 0 dev3 2 = .ok ⟨2, rec2⟩ := by
    simp [entityInit, hup, hpd, pyIndex]
  have he3 : entityInit 0 dev3 3 = .ok ⟨3, rec3⟩ := by
    simp [entityInit, hup, hpd, pyIndex]
  have hreq : request envC8 0 w3 (writeReq 2 0) =
      .ok { status := 200, urlPath := "/mfi/sensors.cgi", json := none }
        { dev := dev3, log := [writeReq 2 0], tick := 0 } := by
    have h := request_200 envC8 0 w3 (writeReq 2 0)
      { status := 200, urlPath := "/mfi/sensors.cgi", json := none } rfl rfl
    simpa [hw3, show w3.log = ([] : List HttpRequest) from rfl,
      show w3.tick = 0 from rfl, loginPath,
      eq_false (by decide : ¬ (("/mfi/sensors.cgi" : String) = "/login.cgi")),
      show ({ dev3 with authenticated := true } : DeviceState) = dev3 from rfl]
      using h
  have hupd : update envC8 0 { dev := dev3, log := [writeReq 2 0], tick := 0 } =
      .ok () { dev := dev3, log := [writeReq 2 0], tick := 1 } := by
    have hn : ¬ ((50 : ℚ) - dev3.time > dev3.cache_time) := by norm_num [dev3]
    simp [update, login, show dev3.authenticated = true from rfl, fetchNeeded,
      now, show dev3.data = some blob3 from rfl, hn, envC8]
  have hent : entityUpdate envC8 0
        { dev := dev3, log := [writeReq 2 0], tick := 0 } ⟨2, rec2⟩ =
      .ok ⟨2, rec2⟩ { dev := dev3, log := [writeReq 2 0], tick := 1 } := by
    simp [entityUpdate, hupd, hpd, pyIndex]
  refine ⟨?_, rfl, ?_⟩
  · simp [createSwitches, hw3, hup, hps,
      show List.range 3 = [0, 1, 2] from rfl, initSwitches, he1, he2, he3]
  · simp [turnOff, entitySet, hreq, hent]

end Mfi
